import Mathlib

/-!
Shallow embedding of the AD013 capacitative fingerprint sensor driver
(src/AD013.cpp) and verification of the frozen claims about it.

Modelling conventions:
* Bytes are `Nat` values; wherever the C code casts to `uint8_t` or stores
  into a `char` buffer, the model applies `% 256`.
* The parameter buffer `AD013_Params` holds a fixed 20-byte array with an
  `int` cursor in C; we model the live prefix (the first `size` bytes) as a
  `List Nat`, so the cursor is the list length.  The cursor is never negative
  in any reachable state, so the `if (params->size < 0)` repair lines in
  AD013_AddParam1/AD013_AddParam2 are no-ops under this model.
* The serial transport is modelled by a chunk schedule
  `chunks : List (List Nat)`: the i-th call to `Stream.readBytes` delivers
  the i-th chunk, truncated to the remaining capacity of the 20-byte receive
  buffer (the C call reads at most `sizeof(recv_buff) - recv_buff_len`).
* `char` is signed on the AVR targets this Arduino library is written for
  (it is compiled against SoftwareSerial, an AVR library).  The receive-side
  checksum loop `sum = (sum + recv_buff[i]) & 65535` therefore adds the
  signed value of each byte; the send-side loop casts to `uint8_t` first.
  `scharVal` models the signed reading.
-/

/-- CFS_MAX_PARAMS_SIZE / AD013_MAX_PARAMS_SIZE: capacity of the parameter
buffer, 20 bytes. -/
def MAX_PARAMS_SIZE : Nat := 20

/-- The parameter staging buffer: live prefix of the C `char buff[20]`
array, cursor = list length. -/
structure AD013_Params where
  buff : List Nat
deriving Repr, DecidableEq

/-- The cursor (`params->size` in C). -/
def AD013_Params.size (p : AD013_Params) : Nat := p.buff.length

/-- AD013_set_uint16_value: writes a 16-bit value big-endian (high byte
first) into a 2-byte window. -/
def set_uint16 (v : Nat) : List Nat := [v % 65536 / 256, v % 256]

/-- AD013_get_uint16_value: reads a big-endian 16-bit value from two bytes
(each byte is read through a `byte` cast, hence `% 256`). -/
def get_uint16 (b0 b1 : Nat) : Nat := (b0 % 256) * 256 + (b1 % 256)

/-- AD013_AddParam1: appends one byte when `size > MAX - 1` does not hold;
returns the new size, or -1 on overflow (buffer unchanged). -/
def AD013_AddParam1 (params : AD013_Params) (val : Nat) : AD013_Params × Int :=
  if params.buff.length > MAX_PARAMS_SIZE - 1 then (params, -1)
  else
    let p : AD013_Params := ⟨params.buff ++ [val % 256]⟩
    (p, (p.buff.length : Int))

/-- AD013_AddParam2: appends a 16-bit value, high byte then low byte, when
`size > MAX - 2` does not hold; returns the new size, or -1 on overflow. -/
def AD013_AddParam2 (params : AD013_Params) (val : Nat) : AD013_Params × Int :=
  if params.buff.length > MAX_PARAMS_SIZE - 2 then (params, -1)
  else
    let p : AD013_Params := ⟨params.buff ++ [val % 65536 / 256, val % 256]⟩
    (p, (p.buff.length : Int))

/-- AD013_AddParamN: memcpy-style append of `buff` (the C caller passes the
byte count separately; every call site passes the true array size, so the
model carries a single list).  The guard `params->size > MAX - size` is
computed in `int` arithmetic, hence the `Int` comparison. -/
def AD013_AddParamN (params : AD013_Params) (buff : List Nat) : AD013_Params × Int :=
  if (params.buff.length : Int) > (MAX_PARAMS_SIZE : Int) - (buff.length : Int) then (params, -1)
  else
    let p : AD013_Params := ⟨params.buff ++ buff.map (· % 256)⟩
    (p, (p.buff.length : Int))

/-- AD013_ClearParams macro: resets the cursor to 0 (the live prefix
becomes empty). -/
def AD013_ClearParams (_params : AD013_Params) : AD013_Params := ⟨[]⟩

/-- One step of the 16-bit checksum accumulator on the send side:
`sum = (sum + (uint8_t) send_buff[i]) & 65535`. -/
def sumByte (s b : Nat) : Nat := (s + b % 256) % 65536

/-- Send-side checksum over a byte range. -/
def buildSumList (l : List Nat) : Nat := l.foldl sumByte 0

/-- Signed value of a stored `char` byte (AVR: plain `char` is signed). -/
def scharVal (b : Nat) : Int := if b % 256 < 128 then (b % 256 : Int) else (b % 256 : Int) - 256

/-- One step of the receive-side checksum:
`sum = (sum + recv_buff[i]) & 65535` with `recv_buff[i]` a signed char. -/
def recvSumByte (s b : Nat) : Nat := (((s : Int) + scharVal b) % 65536).toNat

/-- Receive-side checksum over a byte range. -/
def recvSumList (l : List Nat) : Nat := l.foldl recvSumByte 0

/-- The frame built by AD013_Send lines 229-259: msgTemplate (header,
device id, flag) with the code at offset 9, the params copied at offset 10,
the length field `3 + params->size` at offset 7, and the checksum over
bytes [flag .. end-of-payload] appended big-endian. -/
def buildFrame (code : Nat) (params : List Nat) : List Nat :=
  let body := [0xEF, 0x01, 0xFF, 0xFF, 0xFF, 0xFF, 0x01]
    ++ set_uint16 (3 + params.length) ++ [code % 256] ++ params.map (· % 256)
  body ++ set_uint16 (buildSumList (body.drop 6))

/-- The read loop of AD013_Send lines 269-275: while fewer than
AD013_MSG_HEADER_SIZE + 2 = 12 bytes have accumulated, pre-decrement the
retry counter (initially 5) and break when it reaches 0, otherwise read at
most `20 - recv_buff_len` further bytes.  Returns the accumulated bytes and
the number of reads performed.  Bytes are stored into a `char` buffer,
hence `% 256`. -/
def readLoop : Nat → List Nat → List (List Nat) → List Nat × Nat
  | 0, got, _ => (got, 0)
  | r + 1, got, chunks =>
    if 12 ≤ got.length then (got, 0)
    else if r = 0 then (got, 0)
    else
      let delivered := ((chunks.headD []).take (20 - got.length)).map (· % 256)
      let out := readLoop r (got ++ delivered) chunks.tail
      (out.1, out.2 + 1)

/-- The build + write + read + parse pipeline of AD013_Send, lines 207-359,
for the allocation path of the optional receive-data out-parameter (the
only path the repository exercises: the caller passes a NULL buffer
pointer, so `max_data = pkt_len - 2` in `uint16_t` arithmetic).  Returns
(return value, extracted data when requested, bytes written to the
transport).  The C reads past the received bytes when `pkt_len - 2` exceeds
them (undefined behaviour); the model truncates at the received bytes. -/
def sendCore (code : Nat) (paramBytes : List Nat) (wantData : Bool)
    (chunks : List (List Nat)) : Int × Option (List Nat) × List Nat :=
  let send_buff := buildFrame code paramBytes
  let recv := (readLoop 5 [] chunks).1
  if recv.length < 10 then (-1, none, send_buff)
  else if recv.take 5 = send_buff.take 5 then
    let pkt_len := get_uint16 (recv.getD 7 0) (recv.getD 8 0)
    let recv_sum := get_uint16 (recv.getD (recv.length - 2) 0) (recv.getD (recv.length - 1) 0)
    let recv_code := recv.getD 9 0 % 256
    let sum := recvSumList ((recv.drop 6).take (recv.length - 8))
    if sum ≠ recv_sum then (-99, none, send_buff)
    else
      let data := if wantData then some ((recv.drop 10).take ((pkt_len + 65534) % 65536)) else none
      ((recv_code : Int), data, send_buff)
  else (-1, none, send_buff)

/-- AD013_Send: rejects a supplied parameter struct whose size is below 1
before the send buffer is allocated or any byte is written (lines 225-233);
otherwise runs the build + write + read + parse pipeline. -/
def AD013_Send (code : Nat) (params : Option (List Nat)) (wantData : Bool)
    (chunks : List (List Nat)) : Int × Option (List Nat) × List Nat :=
  match params with
  | some p => if p.length < 1 then (-1, none, []) else sendCore code p wantData chunks
  | none => sendCore code [] wantData chunks

/-- The candidate baud rates tried by CFP_FindSensor when the caller passes
a negative speed (line 404), fastest first. -/
def speedVals : List Int := [115200, 57600, 38400, 19200, 9600]

/-- The VerifyPassword parameter buffer CFP_FindSensor builds when the
caller supplies no params: AD013_DefaultParams (cursor 0) followed by
AD013_AddParamN with the four zero bytes of AD013_def_passwd. -/
def findSensorParams : AD013_Params := (AD013_AddParamN ⟨[]⟩ [0, 0, 0, 0]).1

/-- The per-baud scan of CFP_FindSensor lines 410-421: for each candidate
baud in order, reconfigure the transport and issue VerifyPassword (opcode
0x13); return 1 at the first baud where AD013_Send does not return a
negative value, -1 when every candidate fails.  `replyAt` gives the chunk
schedule the sensor produces at each baud; the second component records the
bauds attempted, in order. -/
def findSensorScanAux (replyAt : Int → List (List Nat)) : List Int → Int × List Int
  | [] => (-1, [])
  | b :: rest =>
    if (AD013_Send 0x13 (some findSensorParams.buff) false (replyAt b)).1 < 0 then
      let out := findSensorScanAux replyAt rest
      (out.1, b :: out.2)
    else (1, [b])

/-- CFP_FindSensor restricted to the `serSpeed < 0` discovery branch
(lines 402-428). -/
def CFP_FindSensor_scan (replyAt : Int → List (List Nat)) : Int × List Int :=
  findSensorScanAux replyAt speedVals

/-- The GetImage polling loop of AD013_SearchTemplate lines 461-480:
issue PS_GetImage (opcode 0x01, no params); a zero status exits the loop;
any nonzero status (0x01 and 0x03 are merely logged) re-checks the budget:
if `timeOut <= 0` the loop breaks with the nonzero status, otherwise it
delays 120 ms, charges `120 + 240` against the budget and polls again.
`replies k` is the chunk schedule of the k-th GetImage reply. -/
def getImageLoop (replies : Nat → List (List Nat)) (k : Nat) (timeOut : Int) : Int × Int :=
  let code := (AD013_Send 0x01 none false (replies k)).1
  if code = 0 then (code, timeOut)
  else if timeOut ≤ 0 then (code, timeOut)
  else getImageLoop replies (k + 1) (timeOut - 360)
termination_by timeOut.toNat
decreasing_by omega

/-- The Search parameter buffer built at lines 514-517: clear, then push
buffer number 1 (one byte), start 0 (two bytes) and 99 (two bytes).  The
SecurityOfficerOnly flag of the enclosing function does not influence the
construction. -/
def searchParams (_SecurityOfficerOnly : Bool) : AD013_Params :=
  let p := AD013_ClearParams ⟨[]⟩
  (AD013_AddParam2 ((AD013_AddParam2 ((AD013_AddParam1 p 1).1) 0).1) 99).1

/-- AD013_SearchTemplate lines 444-537: poll GetImage until a zero status
or timeout; abort with -1 when the final status is nonzero; GenChar on
buffer 1, aborting with -1 on statuses 0x01/0x06/0x07/0x15; issue Search
with the params of `searchParams`; free the received data and return 1. -/
def AD013_SearchTemplate (timeOut : Int) (SecurityOfficerOnly : Bool)
    (imgReplies : Nat → List (List Nat)) (genChunks searchChunks : List (List Nat)) : Int :=
  let r := getImageLoop imgReplies 0 timeOut
  if r.1 ≠ 0 then -1
  else
    let params := (AD013_AddParam1 ⟨[]⟩ 1).1
    let code := (AD013_Send 0x02 (some params.buff) false genChunks).1
    if code = 0x01 ∨ code = 0x06 ∨ code = 0x07 ∨ code = 0x15 then -1
    else
      let sparams := searchParams SecurityOfficerOnly
      let _matched := (AD013_Send 0x04 (some sparams.buff) true searchChunks).1
      1

/-- One push operation on the parameter buffer. -/
inductive PushOp where
  | u8 (v : Nat)
  | u16 (v : Nat)
  | bytes (l : List Nat)
deriving Repr, DecidableEq

/-- Dispatch of a push operation to the corresponding C function. -/
def pushOp (p : AD013_Params) (op : PushOp) : AD013_Params × Int :=
  match op with
  | .u8 v => AD013_AddParam1 p v
  | .u16 v => AD013_AddParam2 p v
  | .bytes l => AD013_AddParamN p l

/-- Number of bytes a push operation appends. -/
def opSize : PushOp → Nat
  | .u8 _ => 1
  | .u16 _ => 2
  | .bytes l => l.length

/-- The bytes a successful push operation appends: a single byte, a 16-bit
value high byte first, or a blob. -/
def encOp : PushOp → List Nat
  | .u8 v => [v % 256]
  | .u16 v => [v % 65536 / 256, v % 256]
  | .bytes l => l.map (· % 256)

/-- Run a sequence of pushes; the flag records whether every push returned
a non-negative value. -/
def applyOps (p : AD013_Params) (ops : List PushOp) : AD013_Params × Bool :=
  match ops with
  | [] => (p, true)
  | op :: rest =>
    let r := pushOp p op
    let out := applyOps r.1 rest
    (out.1, decide (0 ≤ r.2) && out.2)

/-- Modelled from the spec (claim C4 refinement target): the read loop as
the specification words it, looping up to MAX_RETRIES = 5 times and exiting
as soon as `got ≥ 12` and `got ≥ 9 + length_field(buf)`.  Used only to
exhibit where the code diverges from this description. -/
def readLoopSpec : Nat → List Nat → List (List Nat) → List Nat × Nat
  | 0, got, _ => (got, 0)
  | r + 1, got, chunks =>
    if 12 ≤ got.length ∧ 9 + get_uint16 (got.getD 7 0) (got.getD 8 0) ≤ got.length then (got, 0)
    else
      let delivered := ((chunks.headD []).take (20 - got.length)).map (· % 256)
      let out := readLoopSpec r (got ++ delivered) chunks.tail
      (out.1, out.2 + 1)

/-- A well-formed 12-byte ack frame with status OK (0x00); checksum
0x07 + 0x03 = 0x0A. -/
def okAck : List Nat := [0xEF, 0x01, 0xFF, 0xFF, 0xFF, 0xFF, 0x07, 0x00, 0x03, 0x00, 0x00, 0x0A]

/-- A well-formed ack frame with status PACKET_ERR (0x01). -/
def packetErrAck : List Nat := [0xEF, 0x01, 0xFF, 0xFF, 0xFF, 0xFF, 0x07, 0x00, 0x03, 0x01, 0x00, 0x0B]

/-- A well-formed ack frame with status IMAGE_FAIL (0x03). -/
def imageFailAck : List Nat := [0xEF, 0x01, 0xFF, 0xFF, 0xFF, 0xFF, 0x07, 0x00, 0x03, 0x03, 0x00, 0x0D]

/-- A well-formed ack frame with status FINGER_NOT_FOUND (0x09). -/
def notFoundAck : List Nat := [0xEF, 0x01, 0xFF, 0xFF, 0xFF, 0xFF, 0x07, 0x00, 0x03, 0x09, 0x00, 0x13]

/-- A well-formed Search reply with status OK and payload
matched id = 5, score = 0x42. -/
def foundAck : List Nat :=
  [0xEF, 0x01, 0xFF, 0xFF, 0xFF, 0xFF, 0x07, 0x00, 0x07, 0x00, 0x00, 0x05, 0x00, 0x42, 0x00, 0x55]

/-- GetImage reply schedule whose first reply is IMAGE_FAIL and whose
later replies are OK. -/
def c8Replies : Nat → List (List Nat) := fun k => if k = 0 then [imageFailAck] else [okAck]

/-- Per-baud reply schedule where only the first candidate baud answers,
with status PACKET_ERR (0x01). -/
def c5Reply : Int → List (List Nat) := fun b => if b = 115200 then [packetErrAck] else []

/-- A chunk schedule that delivers the OK ack in pieces of
2, 2, 2, 2 and 4 bytes: a fifth read would complete the frame. -/
def c4Chunks : List (List Nat) :=
  [[0xEF, 0x01], [0xFF, 0xFF], [0xFF, 0xFF], [0x07, 0x00], [0x03, 0x00, 0x00, 0x0A]]

/-- The received bytes of a command, as accumulated by the read loop. -/
def recvOf (chunks : List (List Nat)) : List Nat := (readLoop 5 [] chunks).1

theorem map_mod256_eq_self {l : List Nat} (h : ∀ b ∈ l, b < 256) : l.map (· % 256) = l := by
  induction l with
  | nil => rfl
  | cons a t ih =>
    simp only [List.map_cons, List.cons.injEq]
    exact ⟨Nat.mod_eq_of_lt (h a (by simp)), ih fun b hb => h b (by simp [hb])⟩

theorem buildFrame_take5 (code : Nat) (p : List Nat) :
    (buildFrame code p).take 5 = [0xEF, 0x01, 0xFF, 0xFF, 0xFF] := by
  simp [buildFrame, set_uint16, List.take_append_of_le_length]

theorem buildFrame_length (code : Nat) (p : List Nat) :
    (buildFrame code p).length = 12 + p.length := by
  simp [buildFrame, set_uint16]
  omega

theorem sendCore_written (code : Nat) (pb : List Nat) (w : Bool) (chunks : List (List Nat)) :
    (sendCore code pb w chunks).2.2 = buildFrame code pb := by
  simp only [sendCore]
  repeat' split
  all_goals rfl

theorem readLoop_reads_le (r : Nat) (got : List Nat) (chunks : List (List Nat)) :
    (readLoop r got chunks).2 ≤ r - 1 := by
  induction r generalizing got chunks with
  | zero => simp [readLoop]
  | succ r ih =>
    unfold readLoop
    split
    · simp
    · split
      · simp
      · simp only []
        have := ih (got ++ ((chunks.headD []).take (20 - got.length)).map (· % 256)) chunks.tail
        omega

/-- C2 (amended): the parse step rejects a reply (returns -1, no status
code) whenever the first 5 bytes of the reply differ from the first 5
bytes of the outbound request (header plus the first three device_id
bytes); the fourth device_id byte is not compared. -/
theorem c2_echo_check_amended (code : Nat) (params : Option (List Nat)) (w : Bool)
    (chunks : List (List Nat))
    (hp : params ≠ some [])
    (hne : (recvOf chunks).take 5 ≠ [0xEF, 0x01, 0xFF, 0xFF, 0xFF]) :
    (AD013_Send code params w chunks).1 = -1 := by
  have key : ∀ pb, (sendCore code pb w chunks).1 = -1 := by
    intro pb
    simp only [sendCore]
    by_cases h1 : ((readLoop 5 [] chunks).1).length < 10
    · simp [h1]
    · have h2 : ¬ ((readLoop 5 [] chunks).1.take 5 = (buildFrame code pb).take 5) := by
        rw [buildFrame_take5]
        exact fun hh => hne (by simpa [recvOf] using hh)
      simp [h1, h2]
  cases params with
  | none => exact key []
  | some p =>
    have hlen : ¬ p.length < 1 := by
      cases p with
      | nil => exact absurd rfl hp
      | cons a t => simp
    simp only [AD013_Send]
    rw [if_neg hlen]
    exact key p

/-- Witness instantiating C2 at a reply whose second byte differs. -/
theorem c2_echo_check_witness :
    (recvOf [[0xEF, 0x02, 0xFF, 0xFF, 0xFF, 0xFF, 0x07, 0x00, 0x03, 0x00, 0x00, 0x0A]]).take 5
      ≠ [0xEF, 0x01, 0xFF, 0xFF, 0xFF]
    ∧ (AD013_Send 0x01 none false
        [[0xEF, 0x02, 0xFF, 0xFF, 0xFF, 0xFF, 0x07, 0x00, 0x03, 0x00, 0x00, 0x0A]]).1 = -1 :=
  ⟨by decide, c2_echo_check_amended 0x01 none false _ (by decide) (by decide)⟩

/-- C2 counterexample: a reply that differs from the request in the fourth
device_id byte (offset 5: request 0xFF, reply 0x00) is not rejected; it is
accepted and its status code 0 is returned. -/
theorem c2_echo_check_counterexample :
    (buildFrame 0x01 []).getD 5 0 = 0xFF
    ∧ [0xEF, 0x01, 0xFF, 0xFF, 0xFF, 0x00, 0x07, 0x00, 0x03, 0x00, 0x00, 0x0A].getD 5 0 = 0x00
    ∧ (AD013_Send 0x01 none false
        [[0xEF, 0x01, 0xFF, 0xFF, 0xFF, 0x00, 0x07, 0x00, 0x03, 0x00, 0x00, 0x0A]]).1 = 0 := by
  decide

/-- C3 (amended): the parse step never compares the length field with the
number of bytes received: whenever the reply passes the 5-byte echo check
and the checksum check (both computed from the received byte count alone),
the code byte is returned as the status, with no condition on the length
field. -/
theorem c3_length_field_amended (code : Nat) (w : Bool) (chunks : List (List Nat))
    (h10 : 10 ≤ (recvOf chunks).length)
    (hecho : (recvOf chunks).take 5 = [0xEF, 0x01, 0xFF, 0xFF, 0xFF])
    (hsum : recvSumList (((recvOf chunks).drop 6).take ((recvOf chunks).length - 8))
        = get_uint16 ((recvOf chunks).getD ((recvOf chunks).length - 2) 0)
            ((recvOf chunks).getD ((recvOf chunks).length - 1) 0)) :
    (AD013_Send code none w chunks).1 = ((recvOf chunks).getD 9 0 % 256 : Nat) := by
  simp only [AD013_Send, sendCore, recvOf] at *
  rw [if_neg (by omega), if_pos (by rw [buildFrame_take5]; exact hecho), if_neg (by simp [hsum])]

/-- Witness instantiating C3 at a frame whose length field is inconsistent. -/
theorem c3_length_field_witness :
    10 ≤ (recvOf [[0xEF, 0x01, 0xFF, 0xFF, 0xFF, 0xFF, 0x07, 0x00, 0x05, 0x00, 0x00, 0x0C]]).length
    ∧ (AD013_Send 0x13 none false
        [[0xEF, 0x01, 0xFF, 0xFF, 0xFF, 0xFF, 0x07, 0x00, 0x05, 0x00, 0x00, 0x0C]]).1 = 0 :=
  ⟨by decide, by
    have := c3_length_field_amended 0x13 false
      [[0xEF, 0x01, 0xFF, 0xFF, 0xFF, 0xFF, 0x07, 0x00, 0x05, 0x00, 0x00, 0x0C]]
      (by decide) (by decide) (by decide)
    simpa using this⟩

/-- C3 counterexample: a 12-byte reply whose length field is 5 (so that
9 + L = 14 differs from the 12 bytes received) is not rejected with a
length error; it is interpreted as status OK. -/
theorem c3_length_field_counterexample :
    get_uint16 ((recvOf [[0xEF, 0x01, 0xFF, 0xFF, 0xFF, 0xFF, 0x07, 0x00, 0x05, 0x00, 0x00, 0x0C]]).getD 7 0)
        ((recvOf [[0xEF, 0x01, 0xFF, 0xFF, 0xFF, 0xFF, 0x07, 0x00, 0x05, 0x00, 0x00, 0x0C]]).getD 8 0) = 5
    ∧ (recvOf [[0xEF, 0x01, 0xFF, 0xFF, 0xFF, 0xFF, 0x07, 0x00, 0x05, 0x00, 0x00, 0x0C]]).length = 12
    ∧ (AD013_Send 0x01 none false
        [[0xEF, 0x01, 0xFF, 0xFF, 0xFF, 0xFF, 0x07, 0x00, 0x05, 0x00, 0x00, 0x0C]]).1 = 0 := by
  decide

/-- C4 (amended): the read loop performs at most 4 reads (the pre-decrement
of the retry counter burns one unit before the first read); it exits as
soon as 12 bytes have accumulated, without consulting the length field; and
when fewer than 10 bytes were accumulated the command fails with -1. -/
theorem c4_read_loop_amended (chunks : List (List Nat)) (r : Nat) (got : List Nat)
    (code : Nat) (w : Bool)
    (h12 : 12 ≤ got.length)
    (h10 : (recvOf chunks).length < 10) :
    (readLoop 5 [] chunks).2 ≤ 4
    ∧ readLoop r got chunks = (got, 0)
    ∧ (AD013_Send code none w chunks).1 = -1 := by
  refine ⟨?_, ?_, ?_⟩
  · have := readLoop_reads_le 5 [] chunks
    omega
  · cases r with
    | zero => rfl
    | succ r => unfold readLoop; rw [if_pos h12]
  · simp only [AD013_Send, sendCore, recvOf] at *
    rw [if_pos h10]

/-- Witness instantiating C4 at a concrete schedule. -/
theorem c4_read_loop_witness :
    12 ≤ (List.replicate 12 0 : List Nat).length
    ∧ (recvOf [[0x01]]).length < 10
    ∧ (readLoop 5 [] [[0x01]]).2 ≤ 4
    ∧ readLoop 3 (List.replicate 12 0) [[0x01]] = (List.replicate 12 0, 0)
    ∧ (AD013_Send 0x01 none false [[0x01]]).1 = -1 :=
  ⟨by decide, by decide,
    (c4_read_loop_amended [[0x01]] 3 (List.replicate 12 0) 0x01 false (by decide) (by decide)).1,
    (c4_read_loop_amended [[0x01]] 3 (List.replicate 12 0) 0x01 false (by decide) (by decide)).2.1,
    (c4_read_loop_amended [[0x01]] 3 (List.replicate 12 0) 0x01 false (by decide) (by decide)).2.2⟩

/-- C4 counterexample: with the OK ack delivered in chunks of 2, 2, 2, 2
and 4 bytes, the loop described by the claim (up to 5 reads, exit when
got ≥ 12 and got ≥ 9 + L) assembles the full 12-byte frame in 5 reads,
but the code performs only 4 reads, accumulates 8 bytes and fails with -1:
the retry budget of 5 never yields a fifth read. -/
theorem c4_read_loop_counterexample :
    (readLoop 5 [] c4Chunks).2 = 4
    ∧ (readLoop 5 [] c4Chunks).1.length = 8
    ∧ (AD013_Send 0x13 (some [0, 0, 0, 0]) false c4Chunks).1 = -1
    ∧ (readLoopSpec 5 [] c4Chunks).1 = okAck
    ∧ (readLoopSpec 5 [] c4Chunks).2 = 5 := by
  decide

/-- C6: the Search parameters are built without consulting the
SecurityOfficerOnly flag; both scopes issue buffer id 1, start 0 and 99
as the last operand, never (0, 20) for the security-officer scope. -/
theorem c6_search_params_bug :
    (searchParams true).buff = [1, 0, 0, 0, 99]
    ∧ searchParams false = searchParams true := by
  decide

/-- C10: a non-NULL parameter struct whose size is below 1 makes AD013_Send
return -1 with no byte written to the transport, before the send buffer is
built; an empty operand list is expressed by passing no parameter struct,
in which case the 12-byte frame is written. -/
theorem c10_empty_params (code : Nat) (w : Bool) (chunks : List (List Nat)) (p : List Nat)
    (hp : p.length < 1) :
    AD013_Send code (some p) w chunks = (-1, none, [])
    ∧ (AD013_Send code none w chunks).2.2 = buildFrame code []
    ∧ (buildFrame code []).length = 12 := by
  refine ⟨?_, ?_, ?_⟩
  · simp only [AD013_Send]
    rw [if_pos hp]
  · exact sendCore_written code [] w chunks
  · simpa using buildFrame_length code []

/-- Witness instantiating C10 at an explicitly empty parameter buffer. -/
theorem c10_empty_params_witness :
    ([] : List Nat).length < 1
    ∧ AD013_Send 0x13 (some []) false [[0x01]] = (-1, none, [])
    ∧ (AD013_Send 0x13 none false [[0x01]]).2.2 = buildFrame 0x13 [] :=
  ⟨by decide, (c10_empty_params 0x13 false [[0x01]] [] (by decide)).1,
    (c10_empty_params 0x13 false [[0x01]] [] (by decide)).2.1⟩

theorem findSensorScanAux_fail (replyAt : Int → List (List Nat)) (l : List Int)
    (h : ∀ b ∈ l, (AD013_Send 0x13 (some findSensorParams.buff) false (replyAt b)).1 < 0) :
    findSensorScanAux replyAt l = (-1, l) := by
  induction l with
  | nil => rfl
  | cons b rest ih =>
    unfold findSensorScanAux
    rw [if_pos (h b (by simp))]
    simp [ih fun x hx => h x (by simp [hx])]

theorem findSensorScanAux_first (replyAt : Int → List (List Nat)) (pre post : List Int) (b : Int)
    (hpre : ∀ x ∈ pre, (AD013_Send 0x13 (some findSensorParams.buff) false (replyAt x)).1 < 0)
    (hb : 0 ≤ (AD013_Send 0x13 (some findSensorParams.buff) false (replyAt b)).1) :
    findSensorScanAux replyAt (pre ++ b :: post) = (1, pre ++ [b]) := by
  induction pre with
  | nil =>
    simp only [List.nil_append, findSensorScanAux]
    rw [if_neg (by omega)]
  | cons a t ih =>
    simp only [List.cons_append, findSensorScanAux]
    rw [if_pos (hpre a (by simp))]
    simp [ih fun x hx => hpre x (by simp [hx])]

/-- C5 (amended): discovery iterates the five candidate bauds in order and
returns 1 at the first baud whose VerifyPassword reply parses as a
well-formed frame, whatever the status byte (AD013_Send returns the status
code, which is never negative, on any parseable reply); it returns -1 when
all five candidates fail. -/
theorem c5_baud_scan_amended (replyAt : Int → List (List Nat)) (pre post : List Int) (b : Int)
    (hsplit : speedVals = pre ++ b :: post)
    (hpre : ∀ x ∈ pre, (AD013_Send 0x13 (some findSensorParams.buff) false (replyAt x)).1 < 0) :
    ((∀ x ∈ speedVals, (AD013_Send 0x13 (some findSensorParams.buff) false (replyAt x)).1 < 0) →
        CFP_FindSensor_scan replyAt = (-1, speedVals))
    ∧ (0 ≤ (AD013_Send 0x13 (some findSensorParams.buff) false (replyAt b)).1 →
        CFP_FindSensor_scan replyAt = (1, pre ++ [b])) := by
  constructor
  · intro hall
    simp [CFP_FindSensor_scan, findSensorScanAux_fail replyAt speedVals hall]
  · intro hb
    simp [CFP_FindSensor_scan, hsplit, findSensorScanAux_first replyAt pre post b hpre hb]

/-- Witness instantiating C5: only the third candidate baud answers. -/
theorem c5_baud_scan_witness :
    speedVals = [115200, 57600] ++ 38400 :: [19200, 9600]
    ∧ CFP_FindSensor_scan (fun b => if b = 38400 then [okAck] else []) = (1, [115200, 57600, 38400]) :=
  ⟨by decide,
    (c5_baud_scan_amended (fun b => if b = 38400 then [okAck] else [])
      [115200, 57600] [19200, 9600] 38400 (by decide) (by decide)).2 (by decide)⟩

/-- C5 counterexample: at the first candidate baud the sensor answers a
well-formed frame with status PACKET_ERR (0x01), which is neither OK (0x00)
nor BAD_PWD (0x13); discovery nevertheless returns success at that baud. -/
theorem c5_baud_scan_counterexample :
    (AD013_Send 0x13 (some findSensorParams.buff) false (c5Reply 115200)).1 = 0x01
    ∧ CFP_FindSensor_scan c5Reply = (1, [115200]) := by
  decide

theorem getImageLoop_okAck : getImageLoop (fun _ => [okAck]) 0 5000 = (0, 5000) := by
  rw [getImageLoop]
  norm_num [show (AD013_Send 0x01 none false [okAck]).1 = 0 from by decide]

/-- C7: AD013_SearchTemplate returns the constant 1 whenever the Search
reply parses, never the matched slot id: with a NOT_FOUND (0x09) reply it
returns 1 instead of -1, and with a reply whose payload carries matched
slot id 5 it also returns 1 instead of 5. -/
theorem c7_search_return_bug :
    AD013_SearchTemplate 5000 false (fun _ => [okAck]) [okAck] [notFoundAck] = 1
    ∧ AD013_SearchTemplate 5000 false (fun _ => [okAck]) [okAck] [foundAck] = 1
    ∧ (AD013_Send 0x04 (some (searchParams false).buff) true [notFoundAck]).1 = 0x09
    ∧ (AD013_Send 0x04 (some (searchParams false).buff) true [foundAck]).1 = 0x00
    ∧ get_uint16
        (((AD013_Send 0x04 (some (searchParams false).buff) true [foundAck]).2.1.getD []).getD 0 0)
        (((AD013_Send 0x04 (some (searchParams false).buff) true [foundAck]).2.1.getD []).getD 1 0)
      = 5 := by
  refine ⟨?_, ?_, by decide, by decide, by decide⟩
  · simp only [AD013_SearchTemplate, getImageLoop_okAck]
    decide
  · simp only [AD013_SearchTemplate, getImageLoop_okAck]
    decide

/-- C8 (amended): in the GetImage polling loop every nonzero status,
including IMAGE_FAIL (0x03) and PACKET_ERR (0x01) which are merely logged,
lets the poll continue while budget remains, charging 120 + 240 = 360 ms
per iteration; when the budget is already ≤ 0 at the check the loop stops
with the nonzero status and the flow aborts with -1. -/
theorem c8_getimage_poll_amended (replies : Nat → List (List Nat)) (k : Nat) (t : Int)
    (SO : Bool) (g s : List (List Nat))
    (hk : (AD013_Send 0x01 none false (replies k)).1 ≠ 0)
    (h0 : (AD013_Send 0x01 none false (replies 0)).1 ≠ 0) :
    (0 < t → getImageLoop replies k t = getImageLoop replies (k + 1) (t - 360))
    ∧ (t ≤ 0 → getImageLoop replies k t = ((AD013_Send 0x01 none false (replies k)).1, t))
    ∧ (t ≤ 0 → AD013_SearchTemplate t SO replies g s = -1) := by
  refine ⟨?_, ?_, ?_⟩
  · intro ht
    rw [getImageLoop]
    rw [if_neg hk, if_neg (by omega)]
  · intro ht
    rw [getImageLoop]
    rw [if_neg hk, if_pos ht]
  · intro ht
    have hloop : getImageLoop replies 0 t = ((AD013_Send 0x01 none false (replies 0)).1, t) := by
      rw [getImageLoop]
      rw [if_neg h0, if_pos ht]
    simp only [AD013_SearchTemplate, hloop]
    rw [if_pos h0]

/-- Witness instantiating C8 with an exhausted budget. -/
theorem c8_getimage_poll_witness :
    getImageLoop (fun _ => [imageFailAck]) 0 (-5) = ((AD013_Send 0x01 none false [imageFailAck]).1, -5)
    ∧ AD013_SearchTemplate (-5) false (fun _ => [imageFailAck]) [] [] = -1 :=
  ⟨(c8_getimage_poll_amended (fun _ => [imageFailAck]) 0 (-5) false [] []
      (by decide) (by decide)).2.1 (by decide),
   (c8_getimage_poll_amended (fun _ => [imageFailAck]) 0 (-5) false [] []
      (by decide) (by decide)).2.2 (by decide)⟩

/-- C8 counterexample: the first GetImage reply carries status IMAGE_FAIL
(0x03), yet the flow is not terminated: polling continues, the next reply
succeeds and the whole capture-and-search flow returns 1. -/
theorem c8_getimage_poll_counterexample :
    (AD013_Send 0x01 none false (c8Replies 0)).1 = 0x03
    ∧ AD013_SearchTemplate 5000 false c8Replies [okAck] [foundAck] = 1 := by
  constructor
  · decide
  · have h1 : getImageLoop c8Replies 0 5000 = (0, 4640) := by
      rw [getImageLoop]
      norm_num [c8Replies, show (AD013_Send 0x01 none false [imageFailAck]).1 = 3 from by decide]
      rw [getImageLoop]
      norm_num [c8Replies, show (AD013_Send 0x01 none false [okAck]).1 = 0 from by decide]
    simp only [AD013_SearchTemplate, h1]
    decide

theorem sumfold_lt (l : List Nat) : ∀ s : Nat, s < 65536 → l.foldl sumByte s < 65536 := by
  induction l with
  | nil => intro s hs; simpa using hs
  | cons a t ih =>
    intro s _
    exact ih _ (Nat.mod_lt _ (by norm_num))

theorem recvfold_eq_sumfold (l : List Nat) : ∀ s : Nat, s < 65536 → (∀ b ∈ l, b < 128) →
    l.foldl recvSumByte s = l.foldl sumByte s := by
  induction l with
  | nil => intro s _ _; rfl
  | cons a t ih =>
    intro s hs hb
    have ha : a < 128 := hb a (by simp)
    have hstep : recvSumByte s a = sumByte s a := by
      simp only [recvSumByte, sumByte, scharVal]
      rw [if_pos (by omega)]
      omega
    rw [List.foldl_cons, List.foldl_cons, hstep]
    exact ih _ (Nat.mod_lt _ (by norm_num)) fun b hb' => hb b (by simp [hb'])

theorem buildFrame_mem_lt (code : Nat) (p : List Nat) : ∀ b ∈ buildFrame code p, b < 256 := by
  simp only [buildFrame, set_uint16, List.forall_mem_append, List.forall_mem_cons,
    List.forall_mem_map, List.forall_mem_nil]
  norm_num
  refine ⟨⟨⟨⟨by omega, by omega⟩, by omega⟩, fun j _ => by omega⟩, by omega, by omega⟩

theorem readLoop_complete (f : List Nat) (h12 : 12 ≤ f.length) (h20 : f.length ≤ 20)
    (hb : ∀ b ∈ f, b < 256) : readLoop 5 [] [f] = (f, 1) := by
  have ht : f.take 20 = f := List.take_of_length_le h20
  simp [readLoop, ht, map_mod256_eq_self hb, h12]

theorem buildFrame_shape (code : Nat) (p : List Nat) (hcode : code < 256) (hlen : p.length ≤ 8)
    (hb : ∀ b ∈ p, b < 256) :
    buildFrame code p
      = [0xEF, 0x01, 0xFF, 0xFF, 0xFF, 0xFF, 0x01, 0, 3 + p.length, code]
        ++ (p ++ [buildSumList ([0x01, 0, 3 + p.length, code] ++ p) / 256,
                  buildSumList ([0x01, 0, 3 + p.length, code] ++ p) % 256]) := by
  have hmap : p.map (· % 256) = p := map_mod256_eq_self hb
  have hcode256 : code % 256 = code := Nat.mod_eq_of_lt hcode
  have hset : set_uint16 (3 + p.length) = [0, 3 + p.length] := by
    have e1 : (3 + p.length) % 65536 / 256 = 0 := by omega
    have e2 : (3 + p.length) % 256 = 3 + p.length := by omega
    simp only [set_uint16, e1, e2]
  have hS : buildSumList ([0x01, 0, 3 + p.length, code] ++ p) < 65536 :=
    sumfold_lt _ 0 (by norm_num)
  have hsetS : set_uint16 (buildSumList ([0x01, 0, 3 + p.length, code] ++ p))
      = [buildSumList ([0x01, 0, 3 + p.length, code] ++ p) / 256,
         buildSumList ([0x01, 0, 3 + p.length, code] ++ p) % 256] := by
    simp only [set_uint16, Nat.mod_eq_of_lt hS]
  simp only [buildFrame, hmap, hcode256, hset]
  simp only [List.cons_append, List.nil_append]
  rw [show List.drop 6 (0xEF :: 0x01 :: 0xFF :: 0xFF :: 0xFF :: 0xFF :: 0x01 :: 0
      :: (3 + p.length) :: code :: p) = 0x01 :: 0 :: (3 + p.length) :: code :: p from rfl]
  rw [show (0x01 :: 0 :: (3 + p.length) :: code :: p)
      = [0x01, 0, 3 + p.length, code] ++ p from rfl]
  rw [hsetS]

theorem take_four_cons (a b c d : Nat) (l : List Nat) (m : Nat) :
    (a :: b :: c :: d :: l).take (m + 4) = a :: b :: c :: d :: l.take m := rfl

theorem c1_core (code : Nat) (p : List Nat) (hcode : code < 128) (hlen : p.length ≤ 8)
    (hb : ∀ b ∈ p, b < 128) :
    (sendCore code p true [buildFrame code p]).1 = (code : Int)
    ∧ ((sendCore code p true [buildFrame code p]).2.1.getD []).take p.length = p := by
  have hp256 : ∀ b ∈ p, b < 256 := fun b h => lt_trans (hb b h) (by norm_num)
  have hflen : (buildFrame code p).length = 12 + p.length := buildFrame_length code p
  have hrecv : (readLoop 5 [] [buildFrame code p]).1 = buildFrame code p := by
    rw [readLoop_complete (buildFrame code p) (by omega) (by omega) (buildFrame_mem_lt code p)]
  have hshape := buildFrame_shape code p (by omega) hlen hp256
  have hS : buildSumList ([0x01, 0, 3 + p.length, code] ++ p) < 65536 :=
    sumfold_lt _ 0 (by norm_num)
  have hg7 : (buildFrame code p).getD 7 0 = 0 := by
    rw [hshape, List.getD_append _ _ _ _ (by simp)]
    rfl
  have hg8 : (buildFrame code p).getD 8 0 = 3 + p.length := by
    rw [hshape, List.getD_append _ _ _ _ (by simp)]
    rfl
  have hg9 : (buildFrame code p).getD 9 0 = code := by
    rw [hshape, List.getD_append _ _ _ _ (by simp)]
    rfl
  have hgHi : (buildFrame code p).getD (12 + p.length - 2) 0
      = buildSumList ([0x01, 0, 3 + p.length, code] ++ p) / 256 := by
    rw [hshape]
    rw [List.getD_append_right _ _ _ _ (by simp; omega)]
    rw [show (12 + p.length - 2)
        - (([0xEF, 0x01, 0xFF, 0xFF, 0xFF, 0xFF, 0x01, 0, 3 + p.length, code] : List Nat)).length
        = p.length from by simp; omega]
    rw [List.getD_append_right _ _ _ _ (by omega)]
    simp
  have hgLo : (buildFrame code p).getD (12 + p.length - 1) 0
      = buildSumList ([0x01, 0, 3 + p.length, code] ++ p) % 256 := by
    rw [hshape]
    rw [List.getD_append_right _ _ _ _ (by simp; omega)]
    rw [show (12 + p.length - 1)
        - (([0xEF, 0x01, 0xFF, 0xFF, 0xFF, 0xFF, 0x01, 0, 3 + p.length, code] : List Nat)).length
        = p.length + 1 from by simp; omega]
    rw [List.getD_append_right _ _ _ _ (by omega)]
    rw [show p.length + 1 - p.length = 1 from by omega]
    rfl
  have hdrop6 : (buildFrame code p).drop 6
      = [0x01, 0, 3 + p.length, code]
        ++ (p ++ [buildSumList ([0x01, 0, 3 + p.length, code] ++ p) / 256,
                  buildSumList ([0x01, 0, 3 + p.length, code] ++ p) % 256]) := by
    rw [hshape]
    rfl
  have hrange : ((buildFrame code p).drop 6).take (12 + p.length - 8)
      = [0x01, 0, 3 + p.length, code] ++ p := by
    rw [hdrop6]
    rw [show 12 + p.length - 8 = p.length + 4 from by omega]
    rw [show ([0x01, 0, 3 + p.length, code]
        ++ (p ++ [buildSumList ([0x01, 0, 3 + p.length, code] ++ p) / 256,
                  buildSumList ([0x01, 0, 3 + p.length, code] ++ p) % 256]))
        = 0x01 :: 0 :: (3 + p.length) :: code
          :: (p ++ [buildSumList ([0x01, 0, 3 + p.length, code] ++ p) / 256,
                    buildSumList ([0x01, 0, 3 + p.length, code] ++ p) % 256]) from rfl]
    rw [take_four_cons]
    rw [List.take_left]
    rfl
  have hsum : recvSumList (((buildFrame code p).drop 6).take ((buildFrame code p).length - 8))
      = get_uint16 ((buildFrame code p).getD ((buildFrame code p).length - 2) 0)
          ((buildFrame code p).getD ((buildFrame code p).length - 1) 0) := by
    rw [hflen, hrange, hgHi, hgLo]
    have hall : ∀ b ∈ ([0x01, 0, 3 + p.length, code] ++ p), b < 128 := by
      intro b hmem
      rcases List.mem_append.1 hmem with h | h
      · simp only [List.mem_cons, List.not_mem_nil, or_false] at h
        omega
      · exact hb b h
    rw [show recvSumList ([0x01, 0, 3 + p.length, code] ++ p)
        = buildSumList ([0x01, 0, 3 + p.length, code] ++ p) from
      recvfold_eq_sumfold _ 0 (by norm_num) hall]
    simp only [get_uint16]
    omega
  have hdrop10 : (buildFrame code p).drop 10
      = p ++ [buildSumList ([0x01, 0, 3 + p.length, code] ++ p) / 256,
              buildSumList ([0x01, 0, 3 + p.length, code] ++ p) % 256] := by
    rw [hshape]
    rfl
  have hpkt : get_uint16 ((buildFrame code p).getD 7 0) ((buildFrame code p).getD 8 0)
      = 3 + p.length := by
    rw [hg7, hg8]
    simp only [get_uint16]
    omega
  simp only [sendCore, hrecv]
  rw [if_neg (by omega)]
  rw [if_pos trivial]
  rw [if_neg (by simp [hsum])]
  simp only [hpkt, hg9, hdrop10, hflen, if_true]
  constructor
  · exact congrArg _ (Nat.mod_eq_of_lt (by omega))
  · rw [show (3 + p.length + 65534) % 65536 = p.length + 1 from by omega]
    simp only [Option.getD_some]
    rw [List.take_append_eq_append_take]
    rw [List.take_of_length_le (show (p : List Nat).length ≤ p.length + 1 from by omega)]
    rw [List.take_left]

theorem buildFrame_lengthField (code : Nat) (p : List Nat) (hcode : code < 256)
    (hlen : p.length ≤ 8) (hb : ∀ b ∈ p, b < 256) :
    get_uint16 ((buildFrame code p).getD 7 0) ((buildFrame code p).getD 8 0) = 3 + p.length := by
  rw [buildFrame_shape code p hcode hlen hb]
  rw [List.getD_append _ _ _ _ (by simp), List.getD_append _ _ _ _ (by simp)]
  show get_uint16 0 (3 + p.length) = 3 + p.length
  simp only [get_uint16]
  omega

/-- C1 (amended): the build-parse round trip holds exactly on the frames
that survive the 20-byte receive buffer and the signed-char receive
checksum: for an opcode below 0x80 and a nonempty parameter buffer of at
most 8 bytes, all below 0x80, the built frame is 12 + param_len bytes with
length field 3 + param_len, and feeding it back to the parse step yields
the same code and the same payload bytes (the same holds for the 12-byte
parameterless frame). -/
theorem c1_roundtrip_amended (code : Nat) (p : List Nat) (hcode : code < 128)
    (hne : p ≠ []) (hlen : p.length ≤ 8) (hb : ∀ b ∈ p, b < 128) :
    (buildFrame code p).length = 12 + p.length
    ∧ get_uint16 ((buildFrame code p).getD 7 0) ((buildFrame code p).getD 8 0) = 3 + p.length
    ∧ (AD013_Send code (some p) true [buildFrame code p]).1 = (code : Int)
    ∧ ((AD013_Send code (some p) true [buildFrame code p]).2.1.getD []).take p.length = p
    ∧ (AD013_Send code none true [buildFrame code []]).1 = (code : Int) := by
  have h1 : ¬ p.length < 1 := by
    cases p with
    | nil => exact absurd rfl hne
    | cons a t => simp
  have hsend : AD013_Send code (some p) true [buildFrame code p]
      = sendCore code p true [buildFrame code p] := by
    simp only [AD013_Send]
    rw [if_neg h1]
  have hcore := c1_core code p hcode hlen hb
  have hcore0 := c1_core code [] hcode (by simp) (by simp)
  exact ⟨buildFrame_length code p,
    buildFrame_lengthField code p (by omega) hlen (fun b h => lt_trans (hb b h) (by norm_num)),
    hsend ▸ hcore.1, hsend ▸ hcore.2, hcore0.1⟩

/-- Witness instantiating C1 on the VerifyPassword frame. -/
theorem c1_roundtrip_witness :
    (buildFrame 0x13 [0, 0, 0, 0]).length = 16
    ∧ (AD013_Send 0x13 (some [0, 0, 0, 0]) true [buildFrame 0x13 [0, 0, 0, 0]]).1 = 0x13
    ∧ ((AD013_Send 0x13 (some [0, 0, 0, 0]) true
        [buildFrame 0x13 [0, 0, 0, 0]]).2.1.getD []).take 4 = [0, 0, 0, 0] := by
  have h := c1_roundtrip_amended 0x13 [0, 0, 0, 0] (by decide) (by decide) (by decide) (by decide)
  exact ⟨h.1, h.2.2.1, h.2.2.2.1⟩

/-- C1 counterexample: a parameter buffer of 9 zero bytes is well within
the 20-byte capacity, but the 21-byte frame built from it no longer fits
the 20-byte receive buffer, so feeding it back to the parse step is
rejected with the checksum error -99 instead of parsing successfully. -/
theorem c1_roundtrip_counterexample :
    (List.replicate 9 0).length ≤ MAX_PARAMS_SIZE
    ∧ (buildFrame 0x01 (List.replicate 9 0)).length = 21
    ∧ (AD013_Send 0x01 (some (List.replicate 9 0)) true
        [buildFrame 0x01 (List.replicate 9 0)]).1 = -99 := by
  decide

theorem encOp_length (op : PushOp) : (encOp op).length = opSize op := by
  cases op <;> simp [encOp, opSize]

theorem applyOps_concat (ops : List PushOp) : ∀ acc : List Nat,
    acc.length + (ops.map opSize).sum ≤ MAX_PARAMS_SIZE →
    applyOps ⟨acc⟩ ops = (⟨acc ++ (ops.map encOp).flatten⟩, true) := by
  induction ops with
  | nil =>
    intro acc _
    simp [applyOps]
  | cons op rest ih =>
    intro acc h
    have hs : acc.length + opSize op ≤ MAX_PARAMS_SIZE := by
      simp only [List.map_cons, List.sum_cons] at h
      omega
    have hpush : pushOp ⟨acc⟩ op = (⟨acc ++ encOp op⟩, ((acc.length + opSize op : Nat) : Int)) := by
      cases op with
      | u8 v =>
        simp only [pushOp, AD013_AddParam1, opSize, MAX_PARAMS_SIZE] at hs ⊢
        rw [if_neg (by omega)]
        simp [encOp, opSize]
      | u16 v =>
        simp only [pushOp, AD013_AddParam2, opSize, MAX_PARAMS_SIZE] at hs ⊢
        rw [if_neg (by omega)]
        simp [encOp, opSize]
      | bytes l =>
        simp only [pushOp, AD013_AddParamN, opSize, MAX_PARAMS_SIZE] at hs ⊢
        rw [if_neg (by push_cast; omega)]
        simp [encOp, opSize]
    have hrest := ih (acc ++ encOp op) (by
      simp only [List.map_cons, List.sum_cons] at h
      simp only [List.length_append, encOp_length]
      omega)
    have hpos : (0 : Int) ≤ ((acc.length + opSize op : Nat) : Int) := Int.natCast_nonneg _
    simp only [applyOps, hpush, hrest, decide_eq_true hpos, Bool.true_and, Bool.and_true]
    simp [List.append_assoc]

/-- C9: any sequence of pushes whose cumulative size is at most the
20-byte capacity succeeds (every push returns a non-negative new size) and
leaves the buffer holding exactly the concatenation of the pushed values in
order (u16 values high byte first); any single push that would exceed the
capacity returns -1 and leaves both buffer and cursor unchanged. -/
theorem c9_param_buffer (ops : List PushOp) (p : AD013_Params) (op : PushOp)
    (h : (ops.map opSize).sum ≤ MAX_PARAMS_SIZE)
    (hov : MAX_PARAMS_SIZE < p.buff.length + opSize op) :
    applyOps ⟨[]⟩ ops = (⟨(ops.map encOp).flatten⟩, true)
    ∧ pushOp p op = (p, -1) := by
  constructor
  · simpa using applyOps_concat ops [] (by simpa using h)
  · cases op with
    | u8 v =>
      simp only [opSize] at hov
      simp only [pushOp, AD013_AddParam1, MAX_PARAMS_SIZE] at hov ⊢
      rw [if_pos (by omega)]
    | u16 v =>
      simp only [opSize] at hov
      simp only [pushOp, AD013_AddParam2, MAX_PARAMS_SIZE] at hov ⊢
      rw [if_pos (by omega)]
    | bytes l =>
      simp only [opSize] at hov
      simp only [pushOp, AD013_AddParamN, MAX_PARAMS_SIZE] at hov ⊢
      rw [if_pos (by push_cast; omega)]

/-- Witness instantiating C9: a push sequence of cumulative size 7, and a
u16 push onto a buffer holding 19 bytes. -/
theorem c9_param_buffer_witness :
    applyOps ⟨[]⟩ [PushOp.u8 1, PushOp.u16 0, PushOp.u16 99, PushOp.bytes [7, 300]]
      = (⟨[1, 0, 0, 0, 99, 7, 44]⟩, true)
    ∧ pushOp ⟨List.replicate 19 0⟩ (PushOp.u16 5) = (⟨List.replicate 19 0⟩, -1) := by
  have h := c9_param_buffer [PushOp.u8 1, PushOp.u16 0, PushOp.u16 99, PushOp.bytes [7, 300]]
    ⟨List.replicate 19 0⟩ (PushOp.u16 5) (by decide) (by decide)
  exact ⟨h.1.trans (by decide), h.2⟩
